import Mathlib

/-!
Verification development for the vscode-lax-linter language server.

The definitions below are a shallow embedding of the TypeScript sources:
* the PHP-block neutralization step of Analyzer.analyze,
* the two historical severity mappings (Analyzer.analyze and the
  validateTextDocument draft),
* the rule-set resolution of Analyzer.analyze and the axe options of the
  validateTextDocument draft,
* the result-to-diagnostic processing of both analyzer variants, including
  the selector/text-search range reconciliation of the draft,
* the guard chain of the draft validateTextDocument,
* the scheduling/locking event system of the current server (global debounce
  timer, per-URI validating set, and the two suspension points of
  validateTextDocument), modelled as an explicit step function over traces.

Machine integers do not occur; JavaScript strings are modelled as Lean
String / List Char, JS Sets of strings as duplicate-free lists with
membership-guarded insertion and filter-based deletion.
-/

namespace LaxLinter

/-- LSP position: 0-based line and character. -/
structure Pos where
  line : Nat
  character : Nat
deriving DecidableEq

/-- LSP range, start and end position (endPos embeds the LSP field named end). -/
structure Range where
  start : Pos
  endPos : Pos
deriving DecidableEq

/-- DiagnosticSeverity from vscode-languageserver. -/
inductive Sev where
  | error
  | warning
  | information
  | hint
deriving DecidableEq

/-- One offending node inside an axe violation: its target selector path and
its recorded outer-HTML snippet (node.html, possibly absent). -/
structure AxeNode where
  target : List String
  html : Option String
deriving DecidableEq

/-- One axe-core violation as consumed by both analyzer variants. -/
structure Violation where
  id : String
  impact : Option String
  help : String
  helpUrl : String
  tags : List String
  nodes : List AxeNode
deriving DecidableEq

/-- Diagnostic as built by both analyzer variants (codeDescription.href is
flattened into the href field; tags is populated only by the Analyzer
variant). -/
structure Diagnostic where
  severity : Sev
  range : Range
  message : String
  source : String
  code : String
  href : String
  tags : Option (List String)
deriving DecidableEq

/-! ### Source neutralizer (Analyzer.analyze, PHP pre-processing)

The TypeScript replaces every block matched by the non-greedy regex
<\?(?:php|=)?([\s\S]*?)\?> with an HTML comment.  The replacement is built
from the count of matches of the regex written as /\\n/g — i.e. of the
two-character sequence backslash-n, NOT of newline characters — and the
comment body repeats the two-character string backslash-n that many times. -/

/-- First index at which pat occurs as a contiguous substring of t
(String.prototype.indexOf; the empty pattern matches at index 0). -/
def indexOfSub (t pat : List Char) : Option Nat :=
  if pat.isPrefixOf t then some 0
  else
    match t with
    | [] => none
    | _ :: rest => (indexOfSub rest pat).map (· + 1)

/-- Occurrences of the two-character sequence backslash-'n' (the regex
/\\n/g applied to the matched PHP block). -/
def countEscapedN : List Char → Nat
  | '\\' :: 'n' :: rest => 1 + countEscapedN rest
  | _ :: rest => countEscapedN rest
  | [] => 0

/-- The closing marker of a PHP block. -/
def closeMarker : List Char := ['?', '>']

/-- Replacement comment for one matched PHP block: the literal text
backslash-n (two characters, no newline) repeated countEscapedN times,
wrapped in comment markers. -/
def replacementFor (m : List Char) : List Char :=
  "<!--".data ++ (List.replicate (countEscapedN m) ['\\', 'n']).flatten ++ "-->".data

/-- Global non-greedy replacement: at each "<?" opener, the match extends to
the first following "?>"; an opener with no closer is left untouched and
scanning resumes one character later, exactly as the /g regex does.  The
fuel argument only bounds recursion depth; every call strictly shrinks the
list, so fuel equal to the input length never runs out. -/
def neutralizeGo : Nat → List Char → List Char
  | 0, l => l
  | fuel + 1, l =>
    match l with
    | '<' :: '?' :: rest =>
      match indexOfSub rest closeMarker with
      | some j =>
        replacementFor ('<' :: '?' :: rest.take (j + 2)) ++
          neutralizeGo fuel (rest.drop (j + 2))
      | none => '<' :: neutralizeGo fuel ('?' :: rest)
    | c :: rest => c :: neutralizeGo fuel rest
    | [] => []

/-- PHP pre-processing of Analyzer.analyze (documentText.replace(phpRegex, ...)). -/
def neutralize (s : String) : String :=
  String.mk (neutralizeGo s.data.length s.data)

/-- Number of newline characters in a string (its line count minus one). -/
def countNewlines (s : String) : Nat :=
  s.data.count '\n'

/-! ### Severity mappings -/

/-- String.prototype.toLowerCase, character by character. -/
def lowercase (s : String) : String :=
  String.mk (s.data.map Char.toLower)

/-- Severity mapping of Analyzer.analyze: starts from Warning, then a
switch over violation.impact.toLowerCase when the impact is present. -/
def analyzerSeverity (impact : Option String) : Sev :=
  match impact with
  | none => .warning
  | some s =>
    let l := lowercase s
    if l = "critical" then .error
    else if l = "serious" then .error
    else if l = "moderate" then .warning
    else if l = "minor" then .information
    else .warning

/-- Severity mapping of the validateTextDocument draft: a case-sensitive
switch over violation.impact whose default branch is Information. -/
def draftSeverity (impact : Option String) : Sev :=
  match impact with
  | some s =>
    if s = "critical" then .error
    else if s = "serious" then .error
    else if s = "moderate" then .warning
    else if s = "minor" then .information
    else .information
  | none => .information

/-! ### Rule-set resolution -/

/-- Built-in default rule-id list of both analyzer variants. -/
def defaultRules : List String :=
  ["accesskeys", "area-alt", "aria-allowed-role", "aria-braille-equivalent",
   "aria-conditional-attr", "aria-deprecated-role", "aria-dialog-name",
   "aria-prohibited-attr", "aria-roledescription", "aria-treeitem-name",
   "aria-text", "audio-caption", "blink", "duplicate-id", "empty-heading",
   "frame-focusable-content", "frame-title-unique", "heading-order",
   "html-xml-lang-mismatch", "identical-links-same-purpose",
   "image-redundant-alt", "input-button-name", "label-content-name-mismatch",
   "landmark-one-main", "link-in-text-block", "marquee", "meta-viewport",
   "nested-interactive", "no-autoplay-audio", "role-img-alt",
   "scrollable-region-focusable", "select-name", "server-side-image-map",
   "skip-link", "summary-name", "svg-img-alt", "tabindex",
   "table-duplicate-name", "table-fake-caption", "target-size",
   "td-has-header"]

/-- Rule selection of Analyzer.analyze: settings?.axe?.rules when it is an
array with positive length, else the built-in default list.  A missing or
non-array configuration value is modelled as none. -/
def resolveRules (rules : Option (List String)) : List String :=
  match rules with
  | some rs => if rs.length > 0 then rs else defaultRules
  | none => defaultRules

/-- The runOnly object passed to axe.run. -/
structure RunOnly where
  type : String
  values : List String
deriving DecidableEq

/-- Analyzer.analyze always runs by rule id over the resolved rule list. -/
def analyzerRunOnly (rules : Option (List String)) : RunOnly :=
  { type := "rule", values := resolveRules rules }

/-- The axe.rules entry of the draft settings: a rule-id to enabled-flag map. -/
structure AxeCfg where
  tags : List String
  rules : List (String × Bool)
deriving DecidableEq

/-- Run mode of the validation scheduler. -/
inductive RunMode where
  | onType
  | onSave
deriving DecidableEq

/-- WcagLinterSettings, the settings shape of the draft server. -/
structure WcagSettings where
  enable : Bool
  run : RunMode
  debounceDelay : Int
  includedLanguages : List String
  maxFileSize : Nat
  axe : AxeCfg
deriving DecidableEq

/-- The axe.RunOptions object built by the draft validateTextDocument. -/
structure AxeRunOptions where
  resultTypes : List String
  runOnly : RunOnly
  rules : List (String × Bool)
deriving DecidableEq

/-- The draft validateTextDocument always selects rules by tag, passing the
configured tag list to runOnly and the rule-toggle map alongside. -/
def draftAxeOptions (s : WcagSettings) : AxeRunOptions :=
  { resultTypes := ["violations"]
  , runOnly := { type := "tag", values := s.axe.tags }
  , rules := s.axe.rules }

/-! ### Result processing of Analyzer.analyze (one diagnostic per violation) -/

/-- The placeholder range of Analyzer.analyze. -/
def zeroRange : Range := { start := { line := 0, character := 0 }, endPos := { line := 0, character := 0 } }

/-- Result processing of Analyzer.analyze: axeResults.violations.forEach
pushes exactly one diagnostic per violation, with the placeholder range. -/
def analyzerDiagnostics (vs : List Violation) : List Diagnostic :=
  vs.map fun v =>
    { severity := analyzerSeverity v.impact
    , range := zeroRange
    , message := v.help ++ " (Rule: " ++ v.id ++ ")"
    , source := "lax-linter"
    , code := v.id
    , href := v.helpUrl
    , tags := some v.tags }

/-! ### Selector reconciliation of the draft validateTextDocument

The DOM lookup document.querySelector is an external collaborator; it is
modelled as an oracle from selector strings to the outerHTML of the first
matching element (none when no element matches).  TextDocument.positionAt
is the standard offset-to-position conversion over newline characters. -/

/-- Selector string for a node: node.target.join(' '). -/
def selectorOf (n : AxeNode) : String :=
  String.intercalate " " n.target

/-- Fallback snippet for a node: node.html || ''. -/
def nodeSnippet (n : AxeNode) : List Char :=
  (n.html.getD "").data

/-- TextDocument.positionAt: walk the first off characters, counting lines. -/
def positionAtGo : List Char → Nat → Nat → Nat → Pos
  | _, 0, l, c => { line := l, character := c }
  | [], _ + 1, l, c => { line := l, character := c }
  | '\n' :: rest, n + 1, l, _ => positionAtGo rest n (l + 1) 0
  | _ :: rest, n + 1, l, c => positionAtGo rest n l (c + 1)

/-- Offset-to-position conversion on the original text. -/
def positionAt (text : List Char) (off : Nat) : Pos :=
  positionAtGo text off 0 0

/-- Range for a snippet found at offset i with the given length:
positionAt(index) to positionAt(index + length). -/
def rangeFrom (text : List Char) (i len : Nat) : Range :=
  { start := positionAt text i, endPos := positionAt text (i + len) }

/-- Text-search fallback on node.html: first occurrence in the original
text, else the initial startPos/endPos values (line 0 char 0, line 0 char
1) with locationFound = false. -/
def fallbackSearch (text fb : List Char) : Range × Bool :=
  match indexOfSub text fb with
  | some j => (rangeFrom text j fb.length, true)
  | none => ({ start := { line := 0, character := 0 }, endPos := { line := 0, character := 1 } }, false)

/-- Range reconciliation for one violation node, following the draft's
fallback chain: query the DOM with the joined selector; on a hit, search
the original text for the element's outerHTML, falling back to node.html;
on a miss (or a querySelector exception, which runs the same fallback),
search for node.html directly. -/
def reconcile (query : String → Option String) (text : List Char) (n : AxeNode) : Range × Bool :=
  match query (selectorOf n) with
  | some outer =>
    match indexOfSub text outer.data with
    | some i => (rangeFrom text i outer.data.length, true)
    | none => fallbackSearch text (nodeSnippet n)
  | none => fallbackSearch text (nodeSnippet n)

/-- One diagnostic for one (violation, node) pair in the draft: severity
from the draft mapping, range from reconciliation, and the precision caveat
prefixed when no location was found. -/
def diagForNode (query : String → Option String) (text : List Char) (v : Violation) (n : AxeNode) : Diagnostic :=
  let r := reconcile query text n
  { severity := draftSeverity v.impact
  , range := r.1
  , message :=
      if r.2 then v.help ++ " (" ++ v.id ++ ")"
      else "[Position not precise] " ++ (v.help ++ " (" ++ v.id ++ ")")
  , source := "lax-linter"
  , code := v.id
  , href := v.helpUrl
  , tags := none }

/-- Result processing of the draft validateTextDocument: for every
violation, for every node within it, one diagnostic. -/
def draftDiagnostics (query : String → Option String) (text : List Char) (vs : List Violation) : List Diagnostic :=
  vs.flatMap fun v => v.nodes.map (diagForNode query text v)

/-- Number of positions of text at which pat occurs as a substring. -/
def countOcc : List Char → List Char → Nat
  | t, pat =>
    match t with
    | [] => if pat.isPrefixOf ([] : List Char) then 1 else 0
    | _ :: rest => (if pat.isPrefixOf t then 1 else 0) + countOcc rest pat

/-! ### Guard chain of the draft validateTextDocument -/

/-- UTF-8 byte length of a string (Buffer.byteLength(text, 'utf8')). -/
def byteLength (s : String) : Nat :=
  s.data.foldl (fun acc c => acc + c.utf8Size) 0

/-- Document as seen by the draft validateTextDocument. -/
structure DraftDoc where
  uri : String
  text : String
  languageId : String
deriving DecidableEq

/-- Outcome of the guard chain: rejected with an empty diagnostics array
sent, rejected with nothing sent, or fall through to the locking section. -/
inductive GuardOutcome where
  | rejectedCleared
  | rejectedSilent
  | proceed
deriving DecidableEq

/-- Guard chain of the draft validateTextDocument: the enable guard and the
size guard send an empty diagnostic array before returning; the language
guard only logs and returns. -/
def validateGuards (s : WcagSettings) (d : DraftDoc) : GuardOutcome :=
  if s.enable = false then .rejectedCleared
  else if d.languageId ∉ s.includedLanguages then .rejectedSilent
  else if 0 < s.maxFileSize ∧ s.maxFileSize < byteLength d.text then .rejectedCleared
  else .proceed

/-! ### Scheduling and locking of the current server

State of server.ts: the single global validationTimeout, the
validatingDocuments set of URIs, and the in-flight validateTextDocument
invocations.  validateTextDocument has two suspension points: the awaited
progress-creation request (after the validatingDocuments.has check and
before validatingDocuments.add) and the awaited analyzer.analyze call.
Each event below runs one synchronous segment of the server. -/

/-- Settings fields consumed by the scheduler (LaxLinterSettings). -/
structure Cfg where
  enable : Bool
  run : RunMode
  debounceDelay : Int
  maxFileSize : Nat
deriving DecidableEq

/-- Document as seen by the scheduler. -/
structure Doc where
  uri : String
  text : String
deriving DecidableEq

/-- Phase of an in-flight validateTextDocument invocation: suspended at the
progress-creation await, or suspended at the analyzer.analyze await. -/
inductive Phase where
  | awaitProgress
  | running
deriving DecidableEq

/-- One in-flight validateTextDocument invocation. -/
structure Task where
  id : Nat
  uri : String
  phase : Phase
deriving DecidableEq

/-- Observable messages sent to the editor host: an explicit empty
diagnostics array, or the publication that ends a run (ok = false is the
catch branch, which publishes an empty array). -/
inductive HostAction where
  | clear (uri : String)
  | publish (uri : String) (ok : Bool)
deriving DecidableEq

/-- Server state: validationTimeout (which document the armed timer will
validate, none when unarmed), validatingDocuments, in-flight invocations,
the next invocation id, the number of analyses started, and the messages
sent to the host (most recent first). -/
structure SState where
  timer : Option Doc
  validating : List String
  tasks : List Task
  nextId : Nat
  begun : Nat
  log : List HostAction
deriving DecidableEq

/-- Initial server state. -/
def initState : SState :=
  { timer := none, validating := [], tasks := [], nextId := 0, begun := 0, log := [] }

/-- Set.add on the validating set: a no-op when the URI is present. -/
def insertUri (l : List String) (u : String) : List String :=
  if u ∈ l then l else l ++ [u]

/-- Find an in-flight invocation by id. -/
def findTask (ts : List Task) (tid : Nat) : Option Task :=
  ts.find? fun t => t.id == tid

/-- Move an invocation to the running phase. -/
def setRunning (ts : List Task) (tid : Nat) : List Task :=
  ts.map fun t => if t.id == tid then { t with phase := .running } else t

/-- Remove a finished invocation. -/
def removeTask (ts : List Task) (tid : Nat) : List Task :=
  ts.filter fun t => !(t.id == tid)

/-- Synchronous prefix of validateTextDocument, up to its first await: the
enable guard and the size guard send an empty diagnostics array and
return; a URI already in validatingDocuments is skipped with only a log
line; otherwise the invocation suspends at the progress-creation await. -/
def validateStart (cfg : Cfg) (s : SState) (d : Doc) : SState :=
  if cfg.enable = false then { s with log := .clear d.uri :: s.log }
  else if 0 < cfg.maxFileSize ∧ cfg.maxFileSize < byteLength d.text then
    { s with log := .clear d.uri :: s.log }
  else if d.uri ∈ s.validating then s
  else
    { s with tasks := s.tasks ++ [{ id := s.nextId, uri := d.uri, phase := .awaitProgress }]
           , nextId := s.nextId + 1 }

/-- Events that drive the server: a content change (onType), a save
(onSave), the debounce timer firing, the progress-creation request
resolving, and analyzer.analyze settling (ok = false is the catch branch). -/
inductive Ev where
  | edit (d : Doc)
  | save (d : Doc)
  | timerFire
  | progressCreated (tid : Nat)
  | analysisDone (tid : Nat) (ok : Bool)
  | close (uri : String)

/-- One synchronous segment of the server.
edit: triggerValidation clears the single global timeout and re-arms it.
timerFire: the timeout callback calls validateTextDocument.
progressCreated: the invocation resumes, adds its URI to
validatingDocuments, sends progress begin, and awaits analyzer.analyze.
analysisDone: the invocation resumes, publishes diagnostics (an empty
array from the catch branch), and the finally block deletes the URI from
validatingDocuments.
close: diagnostics are cleared and the URI removed from the set. -/
def step (cfg : Cfg) (s : SState) : Ev → SState
  | .edit d => if cfg.run = RunMode.onType then { s with timer := some d } else s
  | .save d => if cfg.run = RunMode.onSave then validateStart cfg s d else s
  | .timerFire =>
    match s.timer with
    | some d => validateStart cfg { s with timer := none } d
    | none => s
  | .progressCreated tid =>
    match findTask s.tasks tid with
    | some t =>
      match t.phase with
      | .awaitProgress =>
        { s with validating := insertUri s.validating t.uri
               , tasks := setRunning s.tasks tid
               , begun := s.begun + 1 }
      | .running => s
    | none => s
  | .analysisDone tid ok =>
    match findTask s.tasks tid with
    | some t =>
      match t.phase with
      | .running =>
        { s with tasks := removeTask s.tasks tid
               , validating := s.validating.filter fun u => !(u == t.uri)
               , log := .publish t.uri ok :: s.log }
      | .awaitProgress => s
    | none => s
  | .close uri =>
    { s with validating := s.validating.filter fun u => !(u == uri)
           , log := .clear uri :: s.log }

/-- Run a whole event trace from the initial state. -/
def runTrace (cfg : Cfg) (evs : List Ev) : SState :=
  evs.foldl (step cfg) initState

/-- Number of in-flight analyses of the given URI (invocations suspended at
the analyzer.analyze await). -/
def runningCountFor (s : SState) (u : String) : Nat :=
  (s.tasks.filter fun t => t.phase == Phase.running && t.uri == u).length

/-! ### Concrete fixtures -/

/-- Default scheduler settings: enabled, onType, 500 ms debounce, 1 MB cap. -/
def cfg0 : Cfg := { enable := true, run := .onType, debounceDelay := 500, maxFileSize := 1048576 }

/-- A small HTML document. -/
def docA : Doc := { uri := "file:///a", text := "<p></p>" }

/-- A second, distinct document. -/
def docB : Doc := { uri := "file:///b", text := "<div></div>" }

/-- Trace in which both validation requests for docA pass the
validatingDocuments check before either reaches validatingDocuments.add. -/
def traceC3 : List Ev :=
  [.edit docA, .timerFire, .edit docA, .timerFire, .progressCreated 0, .progressCreated 1]

/-- Trace in which an edit arrives while docA's analysis is in flight and
the re-armed timer also fires while it is still in flight. -/
def traceC2 : List Ev :=
  [.edit docA, .timerFire, .progressCreated 0, .edit docA, .timerFire, .analysisDone 0 true]

/-- Trace in which docB's armed timer is overwritten by an edit to docA. -/
def traceC8 : List Ev :=
  [.edit docB, .edit docA, .timerFire, .progressCreated 0, .analysisDone 0 true]

/-- DOM oracle of a document in which no selector resolves. -/
def qnone : String → Option String := fun _ => none

/-- A violation node whose snippet occurs in the sample text. -/
def nGood : AxeNode := { target := ["#img1"], html := some "<img>" }

/-- A violation node whose snippet occurs nowhere in the sample text. -/
def nFail : AxeNode := { target := ["#img1"], html := some "ZZZ" }

/-- A violation with two offending nodes. -/
def vTwo : Violation :=
  { id := "image-alt", impact := some "critical"
  , help := "Images must have alternate text"
  , helpUrl := "https://example.org/image-alt"
  , tags := ["wcag2a"], nodes := [nGood, nFail] }

/-- Default draft settings (WcagLinterSettings defaults). -/
def wcagDefault : WcagSettings :=
  { enable := true, run := .onType, debounceDelay := 500
  , includedLanguages := ["html", "php"], maxFileSize := 1048576
  , axe := { tags := ["wcag2aa", "wcag21aa", "best-practice"], rules := [] } }

/-- Draft settings with the enable flag off. -/
def wcagOff : WcagSettings := { wcagDefault with enable := false }

/-- Draft settings with a 3-byte size cap. -/
def wcagSmallCap : WcagSettings := { wcagDefault with maxFileSize := 3 }

/-- A CSS document, outside the default included-languages set. -/
def cssDoc : DraftDoc := { uri := "file:///s.css", text := "body-rule", languageId := "css" }

/-- An HTML document for the draft guards. -/
def htmlDoc : DraftDoc := { uri := "file:///i.html", text := "<p></p>", languageId := "html" }

/-- A server state whose validating set already holds docA's URI. -/
def sLock : SState := { initState with validating := ["file:///a"] }

/-- A server state with one analysis of docA in flight. -/
def sRun : SState :=
  { timer := none, validating := ["file:///a"]
  , tasks := [{ id := 0, uri := "file:///a", phase := .running }]
  , nextId := 1, begun := 1, log := [] }

/-- A server state whose timer is armed for docB. -/
def sTimerB : SState := { initState with timer := some docB }

/-! ### Claims -/

/-- C1: the claim states that neutralization replaces each PHP block by a
comment holding exactly as many newline characters as the block, so line
count is preserved.  The code intends this (its comments say so), but it
counts matches of /\\n/g — the literal two-character sequence backslash-n —
and repeats the literal two-character string backslash-n, so a block whose
newlines are real newline characters is replaced by a comment with no
newlines at all: on the three-line input below the output has one line. -/
theorem neutralize_drops_newlines_at_failing_input :
    neutralize "<?php\na\n?>" = "<!---->" ∧
    countNewlines "<?php\na\n?>" = 2 ∧
    countNewlines (neutralize "<?php\na\n?>") = 0 :=
  ⟨by decide, by decide, by decide⟩

/-- C2 counterexample: the claim states that an edit arriving while an
analysis for the URI is in flight always leads to a follow-up analysis
after the in-flight one completes.  In this trace the edit (fourth event)
re-arms the timer, the timer fires while the run is still in flight, the
request is skipped because the URI is in validatingDocuments, and after the
run completes the system is quiescent with exactly one analysis ever begun:
the edit was dropped and completion re-armed nothing. -/
theorem edit_during_running_is_dropped_cex :
    (runTrace cfg0 traceC2).begun = 1 ∧
    (runTrace cfg0 traceC2).timer = none ∧
    (runTrace cfg0 traceC2).tasks = [] :=
  ⟨rfl, rfl, rfl⟩

/-- C2 amended: completion of an analysis never re-arms the debounce timer;
the timer is re-armed at edit time only, so a follow-up runs only when the
re-armed timer fires after the in-flight run has completed. -/
theorem completion_leaves_timer_unchanged :
    ∀ (cfg : Cfg) (s : SState) (tid : Nat) (ok : Bool),
      (step cfg s (Ev.analysisDone tid ok)).timer = s.timer := by
  intro cfg s tid ok
  simp only [step]
  cases h : findTask s.tasks tid with
  | none => rfl
  | some t => cases hp : t.phase <;> simp [hp]

/-- C3 counterexample: the claim states that no two analysis runs for the
same URI ever overlap.  Because validateTextDocument checks
validatingDocuments before the awaited progress-creation request but adds
the URI only after it, two requests that both pass the check during that
window both reach the analysis: in this trace two runs for docA's URI are
simultaneously in flight. -/
theorem overlapping_runs_same_uri_cex :
    runningCountFor (runTrace cfg0 traceC3) "file:///a" = 2 :=
  rfl

/-- C3 amended: a validation request for a URI that is already in the
validating set (its analysis has started and not finished) is skipped and
changes nothing — no second run starts from it; overlap is possible only
for requests that pass the check before the lock is acquired. -/
theorem locked_uri_request_is_skipped :
    ∀ (cfg : Cfg) (s : SState) (d : Doc),
      cfg.enable = true →
      ¬(0 < cfg.maxFileSize ∧ cfg.maxFileSize < byteLength d.text) →
      d.uri ∈ s.validating →
      validateStart cfg s d = s := by
  intro cfg s d h1 h2 h3
  simp [validateStart, h1, h2, h3]

/-- C3 witness: the skip at a concrete locked state. -/
theorem locked_uri_request_is_skipped_witness :
    validateStart cfg0 sLock docA = sLock :=
  locked_uri_request_is_skipped cfg0 sLock docA rfl (by decide) (by decide)

/-- C4 counterexample: the claim states that every guard failure sends an
explicit empty diagnostic array.  The language guard of the draft
validateTextDocument only logs and returns: for a CSS document under the
default settings the outcome is the silent rejection, not the clearing
one.  (The current server has no language guard at all.) -/
theorem language_guard_silent_cex :
    validateGuards wcagDefault cssDoc = GuardOutcome.rejectedSilent ∧
    GuardOutcome.rejectedSilent ≠ GuardOutcome.rejectedCleared :=
  ⟨by decide, by decide⟩

/-- C4 amended: a failing enable guard or size guard rejects the validation
and sends an empty diagnostic array; a failing language guard rejects the
validation silently, sending nothing. -/
theorem guard_chain_outcomes :
    ∀ (s : WcagSettings) (d : DraftDoc),
      (s.enable = false → validateGuards s d = .rejectedCleared) ∧
      (s.enable = true → d.languageId ∉ s.includedLanguages →
        validateGuards s d = .rejectedSilent) ∧
      (s.enable = true → d.languageId ∈ s.includedLanguages →
        0 < s.maxFileSize → s.maxFileSize < byteLength d.text →
        validateGuards s d = .rejectedCleared) := by
  intro s d
  refine ⟨fun h1 => ?_, fun h1 h2 => ?_, fun h1 h2 h3 h4 => ?_⟩
  · simp [validateGuards, h1]
  · simp [validateGuards, h1, h2]
  · simp [validateGuards, h1, h2, h3, h4]

/-- C4 witness: all three guard outcomes at concrete inputs. -/
theorem guard_chain_outcomes_witness :
    validateGuards wcagOff htmlDoc = .rejectedCleared ∧
    validateGuards wcagDefault cssDoc = .rejectedSilent ∧
    validateGuards wcagSmallCap htmlDoc = .rejectedCleared :=
  ⟨(guard_chain_outcomes wcagOff htmlDoc).1 rfl,
   (guard_chain_outcomes wcagDefault cssDoc).2.1 rfl (by decide),
   (guard_chain_outcomes wcagSmallCap htmlDoc).2.2 rfl (by decide) (by decide) (by decide)⟩

/-- C5 counterexample: the claim states that a violation with k offending
nodes yields exactly k diagnostics.  The Analyzer variant pushes one
diagnostic per violation with no loop over nodes: the two-node violation
below yields one diagnostic, not two. -/
theorem analyzer_one_diag_per_violation_cex :
    (analyzerDiagnostics [vTwo]).length = 1 ∧ vTwo.nodes.length = 2 :=
  ⟨rfl, rfl⟩

/-- C5 amended: the draft validateTextDocument emits exactly one diagnostic
per (violation, node) pair, each carrying the violation's rule id and help
URL; the Analyzer variant instead emits exactly one diagnostic per
violation regardless of its node count. -/
theorem diagnostic_fanout :
    (∀ (q : String → Option String) (text : List Char) (v : Violation),
      (draftDiagnostics q text [v]).length = v.nodes.length ∧
      ((draftDiagnostics q text [v]).all fun d =>
        d.code == v.id && d.href == v.helpUrl) = true) ∧
    (∀ vs : List Violation, (analyzerDiagnostics vs).length = vs.length) := by
  constructor
  · intro q text v
    constructor
    · simp [draftDiagnostics]
    · simp [draftDiagnostics, diagForNode, List.all_eq_true]
  · intro vs
    simp [analyzerDiagnostics]

/-- C6 counterexample: the claim states that an absent impact maps to
Warning.  The draft validateTextDocument's switch has default Information,
so an absent impact maps to Information there. -/
theorem draft_absent_impact_information_cex :
    draftSeverity none = Sev.information ∧ Sev.information ≠ Sev.warning :=
  ⟨by decide, by decide⟩

/-- C6 amended: critical and serious map to Error, moderate to Warning, and
minor to Information in both variants; an absent or unrecognized impact
maps to Warning in the Analyzer variant but to Information in the draft
validateTextDocument. -/
theorem severity_mappings :
    (analyzerSeverity (some "critical") = .error ∧
     analyzerSeverity (some "serious") = .error ∧
     analyzerSeverity (some "moderate") = .warning ∧
     analyzerSeverity (some "minor") = .information ∧
     analyzerSeverity none = .warning ∧
     draftSeverity (some "critical") = .error ∧
     draftSeverity (some "serious") = .error ∧
     draftSeverity (some "moderate") = .warning ∧
     draftSeverity (some "minor") = .information ∧
     draftSeverity none = .information) ∧
    (∀ s : String, lowercase s ≠ "critical" → lowercase s ≠ "serious" →
      lowercase s ≠ "moderate" → lowercase s ≠ "minor" →
      analyzerSeverity (some s) = .warning) ∧
    (∀ s : String, s ≠ "critical" → s ≠ "serious" → s ≠ "moderate" →
      s ≠ "minor" → draftSeverity (some s) = .information) := by
  refine ⟨by decide, fun s h1 h2 h3 h4 => ?_, fun s h1 h2 h3 h4 => ?_⟩
  · simp [analyzerSeverity, h1, h2, h3, h4]
  · simp [draftSeverity, h1, h2, h3, h4]

/-- C6 witness: the unrecognized-impact rows at a concrete impact string. -/
theorem severity_mappings_witness :
    analyzerSeverity (some "Bogus") = Sev.warning ∧
    draftSeverity (some "bogus") = Sev.information :=
  ⟨severity_mappings.2.1 "Bogus" (by decide) (by decide) (by decide) (by decide),
   severity_mappings.2.2 "bogus" (by decide) (by decide) (by decide) (by decide)⟩

/-- C7 counterexample: the claim states that with no explicit rule list,
tag-based selection is used before falling back to the defaults.  The
Analyzer resolves an absent or empty rule list straight to the built-in
default rule-id list and always runs by rule, never by tag. -/
theorem empty_rules_default_not_tags_cex :
    analyzerRunOnly (some []) = { type := "rule", values := defaultRules } ∧
    analyzerRunOnly none = { type := "rule", values := defaultRules } ∧
    ("rule" : String) ≠ "tag" :=
  ⟨rfl, rfl, by decide⟩

/-- C7 amended: a non-empty configured rule-id list takes precedence and is
run by rule id; otherwise the built-in default rule-id list is run by rule
id — tag-based selection never participates in the Analyzer's resolution,
while the draft validateTextDocument always selects by tag. -/
theorem rule_resolution_precedence :
    (∀ rs : List String, 0 < rs.length →
      analyzerRunOnly (some rs) = { type := "rule", values := rs }) ∧
    (analyzerRunOnly none = { type := "rule", values := defaultRules } ∧
     analyzerRunOnly (some []) = { type := "rule", values := defaultRules }) ∧
    (∀ s : WcagSettings,
      (draftAxeOptions s).runOnly = { type := "tag", values := s.axe.tags }) := by
  refine ⟨fun rs h => ?_, ⟨rfl, rfl⟩, fun s => rfl⟩
  simp [analyzerRunOnly, resolveRules, h]

/-- C7 witness: precedence of a concrete one-element rule list. -/
theorem rule_resolution_precedence_witness :
    analyzerRunOnly (some ["image-alt"]) = { type := "rule", values := ["image-alt"] } :=
  rule_resolution_precedence.1 ["image-alt"] (by decide)

/-- C8 counterexample: the claim states debounce timers are per-URI and
that triggering validation for one document leaves another document's
pending timer unchanged.  The server has a single global validationTimeout:
after docB's edit arms it, docA's edit overwrites it, and running the trace
to quiescence publishes only docA's analysis — docB's scheduled analysis
never fires. -/
theorem global_timer_cancels_other_uri_cex :
    (runTrace cfg0 [Ev.edit docB]).timer = some docB ∧
    (runTrace cfg0 [Ev.edit docB, Ev.edit docA]).timer = some docA ∧
    (runTrace cfg0 traceC8).log = [HostAction.publish "file:///a" true] ∧
    docB.uri ≠ docA.uri :=
  ⟨rfl, rfl, rfl, by decide⟩

/-- C8 amended: the debounce timer is global, not per-URI — an onType edit
overwrites the single timer with its own document regardless of which
document the timer was armed for. -/
theorem edit_overwrites_global_timer :
    ∀ (cfg : Cfg) (s : SState) (d : Doc), cfg.run = RunMode.onType →
      (step cfg s (Ev.edit d)).timer = some d := by
  intro cfg s d h
  simp [step, h]

/-- C8 witness: an edit to docA overwrites a timer armed for docB. -/
theorem edit_overwrites_global_timer_witness :
    (step cfg0 sTimerB (Ev.edit docA)).timer = some docA :=
  edit_overwrites_global_timer cfg0 sTimerB docA rfl

/-- C9 counterexample: the claim states that when every reconciliation
strategy fails the returned range is the zero range.  The draft's initial
values are start line 0 character 0 but end line 0 character 1, so a node
whose selector does not resolve and whose snippet is absent from the text
gets the range (0,0)-(0,1), not the zero range. -/
theorem failed_reconciliation_range_cex :
    reconcile qnone "ab\n<img>cd".data nFail =
      ({ start := { line := 0, character := 0 }, endPos := { line := 0, character := 1 } }, false) ∧
    ({ line := 0, character := 1 } : Pos) ≠ { line := 0, character := 0 } :=
  ⟨by decide, by decide⟩

/-- C9 amended: when the selector does not resolve and the node's recorded
snippet occurs in the original text (in particular exactly once), the range
is derived from the first occurrence of the snippet via the text-search
fallback; when every strategy fails the range is (0,0)-(0,1) — not the
zero range — and the precision caveat is prefixed to the message. -/
theorem reconciliation_fallback :
    (∀ (q : String → Option String) (text : List Char) (n : AxeNode) (j : Nat),
      q (selectorOf n) = none → countOcc text (nodeSnippet n) = 1 →
      indexOfSub text (nodeSnippet n) = some j →
      reconcile q text n = (rangeFrom text j (nodeSnippet n).length, true)) ∧
    (∀ (q : String → Option String) (text : List Char) (n : AxeNode),
      q (selectorOf n) = none → indexOfSub text (nodeSnippet n) = none →
      reconcile q text n =
        ({ start := { line := 0, character := 0 }, endPos := { line := 0, character := 1 } }, false)) ∧
    (∀ (q : String → Option String) (text : List Char) (v : Violation) (n : AxeNode),
      (reconcile q text n).2 = false →
      (diagForNode q text v n).message =
        "[Position not precise] " ++ (v.help ++ " (" ++ v.id ++ ")")) := by
  refine ⟨fun q text n j hq hocc hidx => ?_, fun q text n hq hidx => ?_,
    fun q text v n h => ?_⟩
  · simp [reconcile, hq, fallbackSearch, hidx]
  · simp [reconcile, hq, fallbackSearch, hidx]
  · simp [diagForNode, h]

/-- C9 witness: the text-search fallback and the total-failure default at
concrete inputs; the snippet of nGood occurs exactly once, at offset 3. -/
theorem reconciliation_fallback_witness :
    reconcile qnone "ab\n<img>cd".data nGood =
      (rangeFrom "ab\n<img>cd".data 3 5, true) ∧
    reconcile qnone "ab\n<img>cd".data nFail =
      ({ start := { line := 0, character := 0 }, endPos := { line := 0, character := 1 } }, false) ∧
    (diagForNode qnone "ab\n<img>cd".data vTwo nFail).message =
      "[Position not precise] " ++ (vTwo.help ++ " (" ++ vTwo.id ++ ")") :=
  ⟨reconciliation_fallback.1 qnone "ab\n<img>cd".data nGood 3 rfl (by decide) (by decide),
   reconciliation_fallback.2.1 qnone "ab\n<img>cd".data nFail rfl (by decide),
   reconciliation_fallback.2.2 qnone "ab\n<img>cd".data vTwo nFail (by decide)⟩

/-- C10: every completing analysis run — publishing normally or through the
catch branch — removes its URI from the validating set in the finally
block, so no URI stays locked after its run finishes. -/
theorem lock_released_on_completion :
    ∀ (cfg : Cfg) (s : SState) (tid : Nat) (ok : Bool) (t : Task),
      findTask s.tasks tid = some t → t.phase = Phase.running →
      t.uri ∉ (step cfg s (Ev.analysisDone tid ok)).validating := by
  intro cfg s tid ok t hf hp
  simp only [step, hf, hp]
  simp [List.mem_filter]

/-- C10 witness: the lock release at a concrete in-flight state. -/
theorem lock_released_on_completion_witness :
    "file:///a" ∉ (step cfg0 sRun (Ev.analysisDone 0 true)).validating :=
  lock_released_on_completion cfg0 sRun 0 true
    { id := 0, uri := "file:///a", phase := .running } rfl rfl

end LaxLinter
